import Mathlib

/-!
Verification development for the JuggleJam game engine
(`src/unnamed/part_001`, types in `src/types/game.ts`).

The TypeScript source is shallowly embedded below.  JavaScript numbers are
modelled as rationals (`ℚ`); all arithmetic in the relevant code paths is
exact on the literals involved.  The ambient screen dimensions
(`Dimensions.get('window')`) are passed as explicit parameters `W`, `H`;
`Math.random()` draws and `Date.now()`-derived identifiers are injected as
explicit arguments, mirroring the spec's "injected randomness source".
`Math.sqrt d < R` comparisons are embedded as the equivalent squared
comparison `d < R^2` (both sides of the source comparison are non-negative
for the radii produced by the program).
-/

/-- `Vector2` from `src/types/game.ts`. -/
structure Vector2 where
  x : ℚ
  y : ℚ
deriving DecidableEq

/-- `Ball` from `src/types/game.ts`. -/
structure Ball where
  position : Vector2
  velocity : Vector2
  radius : ℚ
deriving DecidableEq

/-- The closed kind set `'cone' | 'goalpost' | 'defender'`. -/
inductive ObstacleType where
  | cone
  | goalpost
  | defender
deriving DecidableEq

/-- `Obstacle` from `src/types/game.ts`. -/
structure Obstacle where
  id : String
  position : Vector2
  velocity : Vector2
  type : ObstacleType
  width : ℚ
  height : ℚ
deriving DecidableEq

/-- `Coin` from `src/types/game.ts`. -/
structure Coin where
  id : String
  position : Vector2
  velocity : Vector2
  radius : ℚ
  value : ℚ
deriving DecidableEq

/-- `GameScreen` from `src/types/game.ts`. -/
inductive GameScreen where
  | menu
  | playing
  | gameOver
  | store
  | leaderboard
  | achievements
deriving DecidableEq

/-- `LeaderboardEntry` from `src/types/game.ts`. -/
structure LeaderboardEntry where
  id : String
  playerName : String
  bestTime : ℚ
  bestCoins : ℚ
  bestTimeTimestamp : ℚ
  bestCoinsTimestamp : ℚ
  bestTimeSkin : String
  bestCoinsSkin : String
deriving DecidableEq

/-- `LeaderboardCategory` from `src/types/game.ts`. -/
inductive LeaderboardCategory where
  | time
  | coins
deriving DecidableEq

/-- `DailyReward` from `src/types/game.ts`. -/
structure DailyReward where
  day : ℚ
  coins : ℚ
  description : String
  claimed : Bool
deriving DecidableEq

/-- The closed achievement kind set of `Achievement.type`. -/
inductive AchievementType where
  | time
  | coins
  | games
  | skins
  | special
deriving DecidableEq

/-- `Achievement` from `src/types/game.ts`. -/
structure Achievement where
  id : String
  title : String
  description : String
  requirement : ℚ
  progress : ℚ
  completed : Bool
  reward : ℚ
  icon : String
  type : AchievementType
deriving DecidableEq

/-- `BallSkin` from `src/types/game.ts`. -/
structure BallSkin where
  id : String
  name : String
  emoji : String
  coinPrice : ℚ
  cashPrice : ℚ
  unlocked : Bool
deriving DecidableEq

/-- `GameState` from `src/types/game.ts` (the full-featured variant used by
`part_001`). -/
structure GameState where
  ball : Ball
  obstacles : List Obstacle
  coins : List Coin
  score : ℚ
  highScore : ℚ
  collectedCoins : ℚ
  currentScreen : GameScreen
  selectedSkin : String
  unlockedSkins : List String
  adsRemoved : Bool
  leaderboard : List LeaderboardEntry
  playerName : String
  leaderboardCategory : LeaderboardCategory
  dailyRewards : List DailyReward
  lastLoginDate : String
  currentStreak : ℚ
  achievements : List Achievement
  totalGamesPlayed : ℚ
  canWatchAdToContinue : Bool
deriving DecidableEq

/-- `GameConfig` from `src/types/game.ts`. -/
structure GameConfig where
  gravity : ℚ
  ballRadius : ℚ
  screenWidth : ℚ
  screenHeight : ℚ
  obstacleSpeed : ℚ
  spawnRate : ℚ
deriving DecidableEq

/-- `BASE_CONFIG` (part_001 lines 8-15); the device screen dimensions are
parameters. -/
def BASE_CONFIG (W H : ℚ) : GameConfig :=
  { gravity := 0.3
    ballRadius := 25
    screenWidth := W
    screenHeight := H
    obstacleSpeed := 1.5
    spawnRate := 0.008 }

/-- `getDifficultyMultiplier` (part_001 lines 18-26); first component is
`speedMultiplier`, second is `spawnMultiplier`. -/
def getDifficultyMultiplier (score : ℚ) : ℚ × ℚ :=
  let timeInSeconds := score / 60
  (min (1 + (timeInSeconds / 120) * 0.8) 2.2,
   min (1 + (timeInSeconds / 90) * 2) 3.5)

/-- `handleTouch` (part_001 lines 284-315): the tap-to-impulse input mapper.
The vertical tap coordinate is accepted and ignored, as in the source. -/
def handleTouch (touchX touchY : ℚ) (s : GameState) : GameState :=
  if s.currentScreen ≠ GameScreen.playing then s else
  let ballPos := s.ball.position
  let upwardForce : ℚ := -5
  let deltaX := touchX - ballPos.x
  let horizontalForce : ℚ := if deltaX > 0 then 2 else if deltaX < 0 then -2 else 0
  let newVelX := s.ball.velocity.x * 0.7 + horizontalForce
  let newVelY := upwardForce
  let maxVelX : ℚ := 4
  let maxVelY : ℚ := 8
  let clampedVelX := max (-maxVelX) (min maxVelX newVelX)
  let clampedVelY := max (-maxVelY) (min maxVelY newVelY)
  { s with ball := { s.ball with velocity := { x := clampedVelX, y := clampedVelY } } }

/-- `BALL_SKINS` (part_001 lines 29-38). -/
def BALL_SKINS : List BallSkin :=
  [ { id := "classic", name := "Classic", emoji := "⚽", coinPrice := 0, cashPrice := 0, unlocked := true },
    { id := "basketball", name := "Basketball", emoji := "🏀", coinPrice := 100, cashPrice := 99, unlocked := false },
    { id := "tennis", name := "Tennis Ball", emoji := "🎾", coinPrice := 150, cashPrice := 99, unlocked := false },
    { id := "volleyball", name := "Volleyball", emoji := "🏐", coinPrice := 200, cashPrice := 149, unlocked := false },
    { id := "football", name := "American Football", emoji := "🏈", coinPrice := 250, cashPrice := 149, unlocked := false },
    { id := "baseball", name := "Baseball", emoji := "⚾", coinPrice := 300, cashPrice := 199, unlocked := false },
    { id := "golf", name := "Golf Ball", emoji := "⛳", coinPrice := 350, cashPrice := 199, unlocked := false },
    { id := "crystal", name := "Crystal Ball", emoji := "🔮", coinPrice := 500, cashPrice := 299, unlocked := false } ]

/-- `DAILY_REWARDS` (part_001 lines 41-49).  The U+2019 apostrophe stands in
for the source's ASCII one in `"You're on fire!"`. -/
def DAILY_REWARDS : List DailyReward :=
  [ { day := 1, coins := 10, description := "Welcome back!", claimed := false },
    { day := 2, coins := 15, description := "Keep it up!", claimed := false },
    { day := 3, coins := 20, description := "Great streak!", claimed := false },
    { day := 4, coins := 25, description := "You’re on fire!", claimed := false },
    { day := 5, coins := 30, description := "Amazing dedication!", claimed := false },
    { day := 6, coins := 40, description := "Almost there!", claimed := false },
    { day := 7, coins := 50, description := "Weekly champion!", claimed := false } ]

/-- `INITIAL_ACHIEVEMENTS` (part_001 lines 52-61). -/
def INITIAL_ACHIEVEMENTS : List Achievement :=
  [ { id := "first_game", title := "Getting Started", description := "Play your first game",
      requirement := 1, progress := 0, completed := false, reward := 10, icon := "🎮", type := .games },
    { id := "collect_50_coins", title := "Coin Collector", description := "Collect 50 coins in total",
      requirement := 50, progress := 0, completed := false, reward := 20, icon := "🪙", type := .coins },
    { id := "survive_60s", title := "Survivor", description := "Survive for 60 seconds in one game",
      requirement := 60, progress := 0, completed := false, reward := 30, icon := "⏱️", type := .time },
    { id := "play_10_games", title := "Dedicated Player", description := "Play 10 games",
      requirement := 10, progress := 0, completed := false, reward := 25, icon := "🏆", type := .games },
    { id := "collect_3_skins", title := "Fashion Forward", description := "Unlock 3 different ball skins",
      requirement := 3, progress := 1, completed := false, reward := 40, icon := "👕", type := .skins },
    { id := "collect_100_one_game", title := "Treasure Hunter", description := "Collect 100 coins in one game",
      requirement := 100, progress := 0, completed := false, reward := 50, icon := "💰", type := .coins },
    { id := "survive_120s", title := "Master Survivor", description := "Survive for 2 minutes in one game",
      requirement := 120, progress := 0, completed := false, reward := 75, icon := "🥇", type := .time },
    { id := "login_streak", title := "Daily Champion", description := "Login for 7 days in a row",
      requirement := 7, progress := 0, completed := false, reward := 100, icon := "📅", type := .special } ]

/-- The `Math.random()` draws and `Date.now()`-derived identifiers consumed by
one invocation of `updatePhysics`, injected as explicit data (spec §4.2:
randomness is a dependency). -/
structure TickRand where
  obstacleRoll : ℚ
  obstacleSideRoll : ℚ
  obstacleTypeRoll : ℚ
  obstacleYRoll : ℚ
  obstacleId : String
  coinRoll : ℚ
  coinSideRoll : ℚ
  coinValueRoll : ℚ
  coinYRoll : ℚ
  coinId : String
deriving DecidableEq

/-- Squared Euclidean distance between two points; the source's
`Math.sqrt(dx^2 + dy^2) < R` tests are embedded as `distSq < R^2`. -/
def distSq (p q : Vector2) : ℚ :=
  (p.x - q.x) ^ 2 + (p.y - q.y) ^ 2

/-- Ball kinematics of one tick (part_001 lines 144-168): gravity, position
integration, friction, the two sequential wall clamps, and the ground test.
Returns the new ball and the ground-collision flag. -/
def ballStep (W H : ℚ) (b : Ball) : Ball × Bool :=
  let cfg := BASE_CONFIG W H
  let vy1 := b.velocity.y + cfg.gravity
  let px1 := b.position.x + b.velocity.x
  let py1 := b.position.y + vy1
  let vx2 := b.velocity.x * 0.95
  let vy2 := vy1 * 0.99
  let left := if px1 ≤ cfg.ballRadius then (cfg.ballRadius, |vx2| * 0.7) else (px1, vx2)
  let right := if left.1 ≥ W - cfg.ballRadius then (W - cfg.ballRadius, -(|left.2| * 0.7)) else left
  ({ position := { x := right.1, y := py1 },
     velocity := { x := right.2, y := vy2 },
     radius := b.radius },
   decide (py1 ≥ H - cfg.ballRadius))

/-- `['cone', 'goalpost', 'defender'][Math.floor(Math.random() * 3)]`
(part_001 line 189). -/
def obstacleTypeOf (q : ℚ) : ObstacleType :=
  if Rat.floor (q * 3) = 0 then .cone
  else if Rat.floor (q * 3) = 1 then .goalpost
  else .defender

/-- Kind-determined width (part_001 line 202). -/
def obstacleWidthOf : ObstacleType → ℚ
  | .cone => 30
  | .goalpost => 20
  | .defender => 40

/-- Kind-determined height (part_001 line 203). -/
def obstacleHeightOf : ObstacleType → ℚ
  | .cone => 40
  | .goalpost => 80
  | .defender => 60

/-- The freshly spawned obstacle (part_001 lines 188-204). -/
def spawnObstacle (W H speedMultiplier : ℚ) (r : TickRand) : Obstacle :=
  let cfg := BASE_CONFIG W H
  let onLeft := decide (r.obstacleSideRoll < 0.5)
  let t := obstacleTypeOf r.obstacleTypeRoll
  { id := r.obstacleId
    position := { x := if onLeft then -50 else W + 50,
                  y := r.obstacleYRoll * (H - 200) + 100 }
    velocity := { x := if onLeft then cfg.obstacleSpeed * speedMultiplier
                       else -(cfg.obstacleSpeed * speedMultiplier),
                  y := 0 }
    type := t
    width := obstacleWidthOf t
    height := obstacleHeightOf t }

/-- The cull predicate common to obstacles and coins (part_001 lines 179-184
and 233-238): strictly inside the 100-unit-expanded screen window. -/
def inBounds (W H : ℚ) (p : Vector2) : Bool :=
  decide (p.x > -100) && decide (p.x < W + 100) &&
  decide (p.y > -100) && decide (p.y < H + 100)

/-- Obstacle advance, cull and stochastic spawn (part_001 lines 171-207). -/
def stepObstacles (W H speedMultiplier spawnMultiplier : ℚ) (r : TickRand)
    (l : List Obstacle) : List Obstacle :=
  let cfg := BASE_CONFIG W H
  let moved := l.map fun o =>
    { o with position := { x := o.position.x + o.velocity.x,
                           y := o.position.y + o.velocity.y } }
  let culled := moved.filter fun o => inBounds W H o.position
  if r.obstacleRoll < cfg.spawnRate * spawnMultiplier then
    culled ++ [spawnObstacle W H speedMultiplier r]
  else culled

/-- The freshly spawned coin (part_001 lines 242-257). -/
def spawnCoin (W H speedMultiplier : ℚ) (r : TickRand) : Coin :=
  let onLeft := decide (r.coinSideRoll < 0.5)
  let coinValue : ℚ := if r.coinValueRoll < 0.8 then 1 else 5
  { id := r.coinId
    position := { x := if onLeft then -30 else W + 30,
                  y := r.coinYRoll * (H - 200) + 100 }
    velocity := { x := if onLeft then speedMultiplier * 1.5 else -(speedMultiplier * 1.5),
                  y := 0 }
    radius := 15
    value := coinValue }

/-- Coin advance, cull and stochastic spawn (part_001 lines 225-260). -/
def stepCoins (W H speedMultiplier : ℚ) (r : TickRand) (l : List Coin) : List Coin :=
  let moved := l.map fun c =>
    { c with position := { x := c.position.x + c.velocity.x,
                           y := c.position.y + c.velocity.y } }
  let culled := moved.filter fun c => inBounds W H c.position
  if r.coinRoll < 0.005 then culled ++ [spawnCoin W H speedMultiplier r]
  else culled

/-- Ball-obstacle collision test (part_001 lines 210-218), with the
square-root comparison in squared form. -/
def ballHitsObstacle (W H : ℚ) (pos : Vector2) (o : Obstacle) : Bool :=
  decide (distSq pos { x := o.position.x + o.width / 2, y := o.position.y + o.height / 2 }
          < ((BASE_CONFIG W H).ballRadius + min o.width o.height / 2) ^ 2)

/-- Ball-coin collection test (part_001 lines 263-270), squared form. -/
def ballTouchesCoin (W H : ℚ) (pos : Vector2) (c : Coin) : Bool :=
  decide (distSq pos c.position < ((BASE_CONFIG W H).ballRadius + c.radius) ^ 2)

/-- `updatePhysics` (part_001 lines 135-281): one simulation tick.  A no-op
unless the phase is `playing`.  Field-update order follows the source; the
difficulty multipliers are computed from the pre-increment score, the
obstacle-collision and coin-collection tests use the post-integration ball
position, and the coin-collection pass (source: reverse-index `splice`)
is expressed as the equivalent keep-filter plus value sum. -/
def updatePhysics (W H : ℚ) (r : TickRand) (s : GameState) : GameState :=
  if s.currentScreen ≠ GameScreen.playing then s else
  let m := getDifficultyMultiplier s.score
  let bs := ballStep W H s.ball
  let newBall := bs.1
  let screen1 := if bs.2 then GameScreen.gameOver else s.currentScreen
  let obstacles2 := stepObstacles W H m.1 m.2 r s.obstacles
  let screen2 := if obstacles2.any (ballHitsObstacle W H newBall.position) then
      GameScreen.gameOver else screen1
  let coins2 := stepCoins W H m.1 r s.coins
  let coinsKept := coins2.filter fun c => !(ballTouchesCoin W H newBall.position c)
  let coinGain := ((coins2.filter fun c => ballTouchesCoin W H newBall.position c).map Coin.value).sum
  { s with
    ball := newBall
    currentScreen := screen2
    obstacles := obstacles2
    score := s.score + 1
    coins := coinsKept
    collectedCoins := s.collectedCoins + coinGain }

/-- The per-achievement body of `updateAchievementProgress` (part_001 lines
421-445) for an achievement whose id matched: a completed achievement is left
untouched, otherwise progress is raised to the max and completion checked.
Returns the updated achievement and the coin reward granted (0 or
`reward`); the source credits the reward to `collectedCoins` via
`saveCoins`/deferred state update. -/
def updateAchievement (a : Achievement) (progress : ℚ) : Achievement × ℚ :=
  if a.completed then (a, 0)
  else
    let newProgress := max a.progress progress
    let completed := decide (newProgress ≥ a.requirement)
    ({ a with progress := newProgress, completed := completed },
     if completed then a.reward else 0)

/-- `updateAchievementProgress` (part_001 lines 419-453): updates the matching
achievement in the state's list and credits any granted reward to the coin
balance. -/
def updateAchievementProgress (achievementId : String) (progress : ℚ)
    (s : GameState) : GameState :=
  let pairs := s.achievements.map fun a =>
    if a.id = achievementId then updateAchievement a progress else (a, 0)
  { s with
    achievements := pairs.map Prod.fst
    collectedCoins := s.collectedCoins + (pairs.map Prod.snd).sum }

/-- `checkDailyLoginReward` (part_001 lines 355-396).  The ambient
`new Date().toDateString()` values for today and yesterday are injected. -/
def checkDailyLoginReward (today yesterdayString : String) (s : GameState) : GameState :=
  let lastLogin := s.lastLoginDate
  if lastLogin ≠ today then
    let newStreak : ℚ := if lastLogin = yesterdayString then s.currentStreak + 1 else 1
    if newStreak > 7 then
      let s1 := { s with
        dailyRewards := DAILY_REWARDS.map fun reward => { reward with claimed := false }
        lastLoginDate := today
        currentStreak := 1 }
      updateAchievementProgress "login_streak" 1 s1
    else
      let s1 := { s with lastLoginDate := today, currentStreak := newStreak }
      updateAchievementProgress "login_streak" newStreak s1
  else s

/-- The existing-player update of `submitScore` (part_001 lines 533-542). -/
def submitEntryUpdate (existingEntry : LeaderboardEntry)
    (currentTime finalScore coinsEarned : ℚ) (skinUsed : String) : LeaderboardEntry :=
  { existingEntry with
    bestTime := max existingEntry.bestTime finalScore
    bestCoins := max existingEntry.bestCoins coinsEarned
    bestTimeTimestamp := if finalScore > existingEntry.bestTime then currentTime
                         else existingEntry.bestTimeTimestamp
    bestCoinsTimestamp := if coinsEarned > existingEntry.bestCoins then currentTime
                          else existingEntry.bestCoinsTimestamp
    bestTimeSkin := if finalScore > existingEntry.bestTime then skinUsed
                    else existingEntry.bestTimeSkin
    bestCoinsSkin := if coinsEarned > existingEntry.bestCoins then skinUsed
                     else existingEntry.bestCoinsSkin }

/-- The fresh entry of `submitScore` (part_001 lines 546-555); the
`Date.now().toString()` id is injected as `newId`. -/
def newLeaderboardEntry (newId playerName : String)
    (currentTime finalScore coinsEarned : ℚ) (skinUsed : String) : LeaderboardEntry :=
  { id := newId
    playerName := playerName
    bestTime := finalScore
    bestCoins := coinsEarned
    bestTimeTimestamp := currentTime
    bestCoinsTimestamp := currentTime
    bestTimeSkin := skinUsed
    bestCoinsSkin := skinUsed }

/-- The `findIndex`-then-set-or-push logic of `submitScore` (part_001 lines
527-557), expressed as replacement of the first entry whose `playerName`
matches, else append. -/
def submitToBoard (newId playerName : String) (currentTime finalScore coinsEarned : ℚ)
    (skinUsed : String) : List LeaderboardEntry → List LeaderboardEntry
  | [] => [newLeaderboardEntry newId playerName currentTime finalScore coinsEarned skinUsed]
  | e :: rest =>
      if e.playerName = playerName then
        submitEntryUpdate e currentTime finalScore coinsEarned skinUsed :: rest
      else
        e :: submitToBoard newId playerName currentTime finalScore coinsEarned skinUsed rest

/-- `submitScore` (part_001 lines 521-561). -/
def submitScore (currentTime : ℚ) (newId : String) (finalScore coinsEarned : ℚ)
    (s : GameState) : GameState :=
  { s with leaderboard :=
      (submitToBoard newId s.playerName currentTime finalScore coinsEarned
        s.selectedSkin s.leaderboard) }

/-- `purchaseSkinWithCoins` (part_001 lines 568-582). -/
def purchaseSkinWithCoins (skinId : String) (s : GameState) : GameState :=
  match BALL_SKINS.find? (fun sk => sk.id == skinId) with
  | some skin =>
      if s.collectedCoins ≥ skin.coinPrice ∧ skinId ∉ s.unlockedSkins then
        { s with
          collectedCoins := s.collectedCoins - skin.coinPrice
          unlockedSkins := s.unlockedSkins ++ [skinId]
          selectedSkin := skinId }
      else s
  | none => s

/-- `startGame` (part_001 lines 456-480): resets the run-scoped world,
increments the games-played counter, then applies the two games-played
achievement updates issued from the updater (they land after the reset). -/
def startGame (W H : ℚ) (s : GameState) : GameState :=
  let newTotalGamesPlayed := s.totalGamesPlayed + 1
  let s1 := { s with
    ball := { position := { x := W / 2, y := H / 2 },
              velocity := { x := 0, y := 0 },
              radius := (BASE_CONFIG W H).ballRadius }
    obstacles := []
    coins := []
    score := 0
    currentScreen := GameScreen.playing
    totalGamesPlayed := newTotalGamesPlayed
    canWatchAdToContinue := true }
  updateAchievementProgress "play_10_games" newTotalGamesPlayed
    (updateAchievementProgress "first_game" newTotalGamesPlayed s1)

/-- The game-over effect (part_001 lines 607-628): on entering `gameOver`,
submit `(floor(score/60), collectedCoins)` to the leaderboard, raise the high
score if strictly beaten, and push the end-of-run achievement samples. -/
def handleGameOver (currentTime : ℚ) (newId : String) (s : GameState) : GameState :=
  if s.currentScreen = GameScreen.gameOver then
    let finalScore : ℚ := (Rat.floor (s.score / 60) : ℤ)
    let coinsThisRound := s.collectedCoins
    let s1 := submitScore currentTime newId finalScore coinsThisRound s
    let s2 := if finalScore > s.highScore then { s1 with highScore := finalScore } else s1
    let s3 := updateAchievementProgress "survive_60s" finalScore s2
    let s4 := updateAchievementProgress "survive_120s" finalScore s3
    let s5 := updateAchievementProgress "collect_50_coins" coinsThisRound s4
    let s6 := updateAchievementProgress "collect_100_one_game" coinsThisRound s5
    updateAchievementProgress "collect_3_skins" (s.unlockedSkins.length : ℚ) s6
  else s

/-- Cumulative application of a sequence of progress samples to one
achievement (each step is the per-achievement body of
`updateAchievementProgress`), accumulating the granted coin rewards. -/
def applyAchievementSamples : Achievement → List ℚ → Achievement × ℚ
  | a, [] => (a, 0)
  | a, p :: rest =>
      let u := updateAchievement a p
      let restResult := applyAchievementSamples u.1 rest
      (restResult.1, u.2 + restResult.2)

/-- A generic in-play state used as the base of the concrete scenarios. -/
def demoState : GameState :=
  { ball := { position := { x := 187, y := 400 }, velocity := { x := 0, y := 0 }, radius := 25 }
    obstacles := []
    coins := []
    score := 0
    highScore := 0
    collectedCoins := 0
    currentScreen := GameScreen.playing
    selectedSkin := "classic"
    unlockedSkins := ["classic"]
    adsRemoved := false
    leaderboard := []
    playerName := "Player"
    leaderboardCategory := LeaderboardCategory.time
    dailyRewards := DAILY_REWARDS
    lastLoginDate := ""
    currentStreak := 0
    achievements := []
    totalGamesPlayed := 0
    canWatchAdToContinue := false }

/-- A randomness draw on which neither spawn roll fires. -/
def quietRand : TickRand :=
  { obstacleRoll := 1, obstacleSideRoll := 1, obstacleTypeRoll := 0, obstacleYRoll := 0,
    obstacleId := "obs", coinRoll := 1, coinSideRoll := 1, coinValueRoll := 0, coinYRoll := 0,
    coinId := "coin" }

/-- C5: the difficulty curve equals the spec formula (with `t = scoreTicks/60`),
both multipliers are monotone non-decreasing in the score, the speed
multiplier never exceeds 2.2, and the spawn multiplier never exceeds 3.5. -/
theorem difficulty_formula_monotone_capped (s t : ℚ) (hs : 0 ≤ s) (hst : s ≤ t) :
    getDifficultyMultiplier s =
      (min (1 + (s / 60 / 120) * 0.8) 2.2, min (1 + (s / 60 / 90) * 2) 3.5) ∧
    (getDifficultyMultiplier s).1 ≤ (getDifficultyMultiplier t).1 ∧
    (getDifficultyMultiplier s).2 ≤ (getDifficultyMultiplier t).2 ∧
    (getDifficultyMultiplier s).1 ≤ 2.2 ∧
    (getDifficultyMultiplier s).2 ≤ 3.5 := by
  simp only [getDifficultyMultiplier]
  refine ⟨trivial, ?_, ?_, ?_, ?_⟩
  · have h : 1 + (s / 60 / 120) * 0.8 ≤ 1 + (t / 60 / 120) * 0.8 := by linarith
    exact min_le_min h le_rfl
  · have h : 1 + (s / 60 / 90) * 2 ≤ 1 + (t / 60 / 90) * 2 := by linarith
    exact min_le_min h le_rfl
  · exact min_le_right _ _
  · exact min_le_right _ _

/-- Witness for `difficulty_formula_monotone_capped` at scores 0 and 600. -/
theorem difficulty_formula_monotone_capped_witness :
    (0 : ℚ) ≤ 0 ∧ (0 : ℚ) ≤ 600 ∧
    (getDifficultyMultiplier 0 =
      (min (1 + ((0 : ℚ) / 60 / 120) * 0.8) 2.2, min (1 + ((0 : ℚ) / 60 / 90) * 2) 3.5) ∧
    (getDifficultyMultiplier 0).1 ≤ (getDifficultyMultiplier 600).1 ∧
    (getDifficultyMultiplier 0).2 ≤ (getDifficultyMultiplier 600).2 ∧
    (getDifficultyMultiplier 0).1 ≤ 2.2 ∧
    (getDifficultyMultiplier 0).2 ≤ 3.5) :=
  ⟨le_rfl, by norm_num,
   difficulty_formula_monotone_capped 0 600 le_rfl (by norm_num)⟩

/-- C4 counterexample: with prior velocity.x = 4 (reachable: it is the cap the
tap clamp itself enforces), a tap at x=300 with the ball at x=200 yields
velocity.x = 4, not `prevVelX*0.7 + 2 = 4.8` — the claim omits the clamp. -/
theorem tap_formula_unclamped_counterexample :
    (handleTouch 300 0 { demoState with
        ball := { position := { x := 200, y := 400 },
                  velocity := { x := 4, y := 0 }, radius := 25 } }).ball.velocity.x = 4 ∧
    ¬ ((4 : ℚ) = 4 * 0.7 + 2) := by
  constructor
  · norm_num [handleTouch, demoState, min_def, max_def]
  · norm_num

/-- C4 amended: a tap at x=300 with ball.x=200 during play selects horizontal
force +2 and yields velocity.x = clamp(prevVelX*0.7 + 2) to [-4, 4] (equal to
`prevVelX*0.7 + 2` whenever that value lies within the caps) and
velocity.y = -5. -/
theorem tap_right_of_ball_amended (ty : ℚ) (s : GameState)
    (hplay : s.currentScreen = GameScreen.playing)
    (hx : s.ball.position.x = 200) :
    (handleTouch 300 ty s).ball.velocity.x
      = max (-4) (min 4 (s.ball.velocity.x * 0.7 + 2)) ∧
    (handleTouch 300 ty s).ball.velocity.y = -5 := by
  norm_num [handleTouch, hplay, hx, min_def, max_def]

/-- Witness for `tap_right_of_ball_amended` on `demoState` moved to x=200
with prior velocity (1, 0). -/
theorem tap_right_of_ball_amended_witness :
    (let s := { demoState with
        ball := { position := { x := 200, y := 400 },
                  velocity := { x := 1, y := 0 }, radius := 25 } };
     s.currentScreen = GameScreen.playing ∧ s.ball.position.x = 200 ∧
     ((handleTouch 300 0 s).ball.velocity.x
        = max (-4) (min 4 (s.ball.velocity.x * 0.7 + 2)) ∧
      (handleTouch 300 0 s).ball.velocity.y = -5)) :=
  ⟨rfl, rfl, tap_right_of_ball_amended 0 _ rfl rfl⟩

/-- C7: neither a simulation tick nor a tap changes the ball's radius, and
immediately after a tap during play both velocity components respect the
caps |vx| ≤ 4 and |vy| ≤ 8. -/
theorem ball_radius_constant_and_tap_caps (W H : ℚ) (r : TickRand) (tx ty : ℚ)
    (s : GameState) :
    (updatePhysics W H r s).ball.radius = s.ball.radius ∧
    (handleTouch tx ty s).ball.radius = s.ball.radius ∧
    (s.currentScreen = GameScreen.playing →
      |(handleTouch tx ty s).ball.velocity.x| ≤ 4 ∧
      |(handleTouch tx ty s).ball.velocity.y| ≤ 8) := by
  refine ⟨?_, ?_, ?_⟩
  · by_cases h : s.currentScreen = GameScreen.playing
    · simp [updatePhysics, h, ballStep]
    · simp [updatePhysics, h]
  · by_cases h : s.currentScreen = GameScreen.playing
    · simp [handleTouch, h]
    · simp [handleTouch, h]
  · intro h
    simp only [handleTouch, h, ne_eq, not_true_eq_false, if_false]
    constructor
    · exact abs_le.mpr ⟨le_max_left _ _, max_le (by norm_num) (min_le_left _ _)⟩
    · exact abs_le.mpr ⟨le_max_left _ _, max_le (by norm_num) (min_le_left _ _)⟩

/-- Witness for `ball_radius_constant_and_tap_caps` on `demoState`. -/
theorem ball_radius_constant_and_tap_caps_witness :
    (updatePhysics 375 812 quietRand demoState).ball.radius = demoState.ball.radius ∧
    (handleTouch 300 0 demoState).ball.radius = demoState.ball.radius ∧
    (demoState.currentScreen = GameScreen.playing →
      |(handleTouch 300 0 demoState).ball.velocity.x| ≤ 4 ∧
      |(handleTouch 300 0 demoState).ball.velocity.y| ≤ 8) :=
  ball_radius_constant_and_tap_caps 375 812 quietRand 300 0 demoState

/-- C2 amended: from (187, 400) with zero velocity, one tick gives
velocity.y = 0.3 before damping (0.297 after damping) and position.y = 400.3,
because the position integration uses the pre-damping velocity. -/
theorem tick_gravity_then_integrate_then_damp (W H : ℚ) (r : TickRand) (s : GameState)
    (hplay : s.currentScreen = GameScreen.playing)
    (hpos : s.ball.position = { x := 187, y := 400 })
    (hvel : s.ball.velocity = { x := 0, y := 0 }) :
    (updatePhysics W H r s).ball.position.y = 400 + (0 + 0.3) ∧
    (updatePhysics W H r s).ball.position.y = 400.3 ∧
    (updatePhysics W H r s).ball.velocity.y = (0 + 0.3) * 0.99 ∧
    (updatePhysics W H r s).ball.velocity.y = 0.297 := by
  norm_num [updatePhysics, ballStep, BASE_CONFIG, hplay, hpos, hvel]

/-- Witness for `tick_gravity_then_integrate_then_damp` on `demoState`
(whose ball is at (187, 400) with zero velocity) at W=375, H=812. -/
theorem tick_gravity_then_integrate_then_damp_witness :
    demoState.currentScreen = GameScreen.playing ∧
    demoState.ball.position = { x := 187, y := 400 } ∧
    demoState.ball.velocity = { x := 0, y := 0 } ∧
    ((updatePhysics 375 812 quietRand demoState).ball.position.y = 400 + (0 + 0.3) ∧
     (updatePhysics 375 812 quietRand demoState).ball.position.y = 400.3 ∧
     (updatePhysics 375 812 quietRand demoState).ball.velocity.y = (0 + 0.3) * 0.99 ∧
     (updatePhysics 375 812 quietRand demoState).ball.velocity.y = 0.297) :=
  ⟨rfl, rfl, rfl,
   tick_gravity_then_integrate_then_damp 375 812 quietRand demoState rfl rfl rfl⟩

/-- C2 counterexample: in the claimed scenario the code produces
position.y = 400.3, not the claimed 400.297. -/
theorem tick_scenario_position_counterexample :
    (updatePhysics 375 812 quietRand demoState).ball.position.y = 400.3 ∧
    ¬ ((updatePhysics 375 812 quietRand demoState).ball.position.y = 400.297) := by
  have h : (updatePhysics 375 812 quietRand demoState).ball.position.y = 400.3 := by
    norm_num [updatePhysics, ballStep, BASE_CONFIG, demoState]
  refine ⟨h, ?_⟩
  rw [h]
  norm_num

/-- An achievement update leaves the reward amount unchanged. -/
theorem updateAchievement_reward (a : Achievement) (p : ℚ) :
    (updateAchievement a p).1.reward = a.reward := by
  unfold updateAchievement
  split <;> rfl

/-- An achievement update never lowers progress. -/
theorem updateAchievement_progress_le (a : Achievement) (p : ℚ) :
    a.progress ≤ (updateAchievement a p).1.progress := by
  unfold updateAchievement
  split
  · exact le_rfl
  · exact le_max_left _ _

/-- A completed achievement is left untouched and grants nothing. -/
theorem updateAchievement_of_completed (a : Achievement) (p : ℚ)
    (h : a.completed = true) : updateAchievement a p = (a, 0) := by
  unfold updateAchievement
  rw [if_pos h]

/-- The granted amount of a single update of a not-yet-completed achievement
is the reward exactly when the update completes it. -/
theorem updateAchievement_snd (a : Achievement) (p : ℚ) (h : a.completed = false) :
    (updateAchievement a p).2
      = (if (updateAchievement a p).1.completed = true then a.reward else 0) := by
  unfold updateAchievement
  rw [if_neg (by simp [h])]

/-- Once completed, a whole sample sequence is a no-op granting nothing. -/
theorem applyAchievementSamples_of_completed (a : Achievement) (l : List ℚ)
    (h : a.completed = true) : applyAchievementSamples a l = (a, 0) := by
  induction l with
  | nil => rfl
  | cons p rest ih =>
      unfold applyAchievementSamples
      rw [updateAchievement_of_completed a p h]
      simp [ih]

/-- Progress is non-decreasing along any sample sequence. -/
theorem applyAchievementSamples_progress_le (l : List ℚ) (a : Achievement) :
    a.progress ≤ (applyAchievementSamples a l).1.progress := by
  induction l generalizing a with
  | nil => exact le_rfl
  | cons p rest ih =>
      calc a.progress ≤ (updateAchievement a p).1.progress :=
             updateAchievement_progress_le a p
        _ ≤ (applyAchievementSamples (updateAchievement a p).1 rest).1.progress :=
             ih (updateAchievement a p).1
        _ = (applyAchievementSamples a (p :: rest)).1.progress := rfl

/-- The total reward granted over a sample sequence is the achievement's
reward exactly when the sequence completes it, and 0 otherwise. -/
theorem applyAchievementSamples_total_reward (l : List ℚ) (a : Achievement) :
    (applyAchievementSamples a l).2
      = (if a.completed = false ∧ (applyAchievementSamples a l).1.completed = true
         then a.reward else 0) := by
  induction l generalizing a with
  | nil =>
      cases h : a.completed <;> simp [applyAchievementSamples, h]
  | cons p rest ih =>
      cases h : a.completed with
      | true =>
          rw [applyAchievementSamples_of_completed a (p :: rest) h]
          simp [h]
      | false =>
          have hstep : applyAchievementSamples a (p :: rest)
              = ((applyAchievementSamples (updateAchievement a p).1 rest).1,
                 (updateAchievement a p).2
                   + (applyAchievementSamples (updateAchievement a p).1 rest).2) := rfl
          rw [hstep]
          cases hc : (updateAchievement a p).1.completed with
          | true =>
              rw [applyAchievementSamples_of_completed _ rest hc]
              simp [updateAchievement_snd a p h, hc]
          | false =>
              rw [updateAchievement_snd a p h, hc]
              rw [ih (updateAchievement a p).1]
              simp [hc, updateAchievement_reward a p]

/-- C3 amended: an update of a not-yet-completed achievement sets
progress' = max(progress, newSample); any update after completion (whatever
the sample) leaves the achievement unchanged and grants nothing; progress is
non-decreasing over any sample sequence, completion is permanent, and the
coin reward is granted exactly once — the total granted over a sequence is
the reward precisely when that sequence crosses the requirement. -/
theorem achievement_update_amended (a : Achievement) (p : ℚ) (l : List ℚ) :
    (a.completed = false →
      (updateAchievement a p).1.progress = max a.progress p) ∧
    (a.completed = true → updateAchievement a p = (a, 0)) ∧
    a.progress ≤ (applyAchievementSamples a l).1.progress ∧
    (a.completed = true → applyAchievementSamples a l = (a, 0)) ∧
    (applyAchievementSamples a l).2
      = (if a.completed = false ∧ (applyAchievementSamples a l).1.completed = true
         then a.reward else 0) := by
  refine ⟨?_, updateAchievement_of_completed a p, applyAchievementSamples_progress_le l a,
    applyAchievementSamples_of_completed a l,
    applyAchievementSamples_total_reward l a⟩
  intro h
  unfold updateAchievement
  rw [if_neg (by simp [h])]

/-- Witness for `achievement_update_amended` on a fresh 60-second survival
achievement with a sample of 45 and the sequence [30, 80, 20]. -/
theorem achievement_update_amended_witness :
    (let a : Achievement :=
      { id := "survive_60s", title := "Survivor",
        description := "Survive for 60 seconds in one game",
        requirement := 60, progress := 0, completed := false, reward := 30,
        icon := "⏱️", type := .time };
    (a.completed = false →
      (updateAchievement a 45).1.progress = max a.progress 45) ∧
    (a.completed = true → updateAchievement a 45 = (a, 0)) ∧
    a.progress ≤ (applyAchievementSamples a [30, 80, 20]).1.progress ∧
    (a.completed = true → applyAchievementSamples a [30, 80, 20] = (a, 0)) ∧
    (applyAchievementSamples a [30, 80, 20]).2
      = (if a.completed = false ∧ (applyAchievementSamples a [30, 80, 20]).1.completed = true
         then a.reward else 0)) :=
  achievement_update_amended _ 45 [30, 80, 20]

/-- C3 counterexample: a completed achievement (requirement 60 reached with
progress 60) receiving a later, larger sample 100 keeps progress 60 — the
unconditional rule progress' = max(progress, newSample) fails after
completion. -/
theorem achievement_progress_not_always_max :
    (updateAchievement
      { id := "survive_60s", title := "Survivor",
        description := "Survive for 60 seconds in one game",
        requirement := 60, progress := 60, completed := true, reward := 30,
        icon := "⏱️", type := .time } 100).1.progress = 60 ∧
    ¬ ((60 : ℚ) = max 60 100) := by
  constructor
  · rfl
  · norm_num [max_def]

/-- C8: a submission against an existing player entry sets
bestTime' = max(bestTime, submitted time) and
bestCoins' = max(bestCoins, submitted coins), so both metrics are
non-decreasing, and the metrics move independently: there are submissions
raising bestCoins but not bestTime, and vice versa. -/
theorem leaderboard_entry_monotone_independent
    (e : LeaderboardEntry) (t fs c : ℚ) (sk : String) :
    (submitEntryUpdate e t fs c sk).bestTime = max e.bestTime fs ∧
    (submitEntryUpdate e t fs c sk).bestCoins = max e.bestCoins c ∧
    e.bestTime ≤ (submitEntryUpdate e t fs c sk).bestTime ∧
    e.bestCoins ≤ (submitEntryUpdate e t fs c sk).bestCoins ∧
    (∃ e₀ : LeaderboardEntry, ∃ t₀ fs₀ c₀ : ℚ, ∃ sk₀ : String,
      e₀.bestCoins < (submitEntryUpdate e₀ t₀ fs₀ c₀ sk₀).bestCoins ∧
      (submitEntryUpdate e₀ t₀ fs₀ c₀ sk₀).bestTime = e₀.bestTime) ∧
    (∃ e₀ : LeaderboardEntry, ∃ t₀ fs₀ c₀ : ℚ, ∃ sk₀ : String,
      e₀.bestTime < (submitEntryUpdate e₀ t₀ fs₀ c₀ sk₀).bestTime ∧
      (submitEntryUpdate e₀ t₀ fs₀ c₀ sk₀).bestCoins = e₀.bestCoins) := by
  refine ⟨rfl, rfl, le_max_left _ _, le_max_left _ _, ?_, ?_⟩
  · refine ⟨{ id := "1", playerName := "Player", bestTime := 10, bestCoins := 5,
              bestTimeTimestamp := 0, bestCoinsTimestamp := 0,
              bestTimeSkin := "classic", bestCoinsSkin := "classic" },
            0, 10, 50, "classic", ?_, ?_⟩
    · norm_num [submitEntryUpdate, max_def]
    · norm_num [submitEntryUpdate, max_def]
  · refine ⟨{ id := "1", playerName := "Player", bestTime := 10, bestCoins := 5,
              bestTimeTimestamp := 0, bestCoinsTimestamp := 0,
              bestTimeSkin := "classic", bestCoinsSkin := "classic" },
            0, 20, 5, "classic", ?_, ?_⟩
    · norm_num [submitEntryUpdate, max_def]
    · norm_num [submitEntryUpdate, max_def]

/-- C10: purchasing a skin is a no-op when the id is unknown, the skin is
already unlocked, or the balance is insufficient; otherwise it deducts
exactly the coin price (leaving a non-negative balance), appends the skin to
the unlocked list and selects it. -/
theorem purchase_skin_cases (s : GameState) (skinId : String) (skin : BallSkin) :
    (BALL_SKINS.find? (fun sk => sk.id == skinId) = none →
      purchaseSkinWithCoins skinId s = s) ∧
    (skinId ∈ s.unlockedSkins → purchaseSkinWithCoins skinId s = s) ∧
    (BALL_SKINS.find? (fun sk => sk.id == skinId) = some skin →
      s.collectedCoins < skin.coinPrice → purchaseSkinWithCoins skinId s = s) ∧
    (BALL_SKINS.find? (fun sk => sk.id == skinId) = some skin →
      skin.coinPrice ≤ s.collectedCoins → skinId ∉ s.unlockedSkins →
      (purchaseSkinWithCoins skinId s).collectedCoins
          = s.collectedCoins - skin.coinPrice ∧
      0 ≤ (purchaseSkinWithCoins skinId s).collectedCoins ∧
      (purchaseSkinWithCoins skinId s).unlockedSkins
          = s.unlockedSkins ++ [skinId] ∧
      (purchaseSkinWithCoins skinId s).selectedSkin = skinId) := by
  refine ⟨?_, ?_, ?_, ?_⟩
  · intro hnone
    unfold purchaseSkinWithCoins
    rw [hnone]
  · intro hmem
    unfold purchaseSkinWithCoins
    cases hf : BALL_SKINS.find? (fun sk => sk.id == skinId) with
    | none => rfl
    | some sk =>
        exact if_neg fun h => h.2 hmem
  · intro hsome hlt
    unfold purchaseSkinWithCoins
    rw [hsome]
    exact if_neg fun h => absurd h.1 (not_le.mpr hlt)
  · intro hsome hge hnmem
    unfold purchaseSkinWithCoins
    rw [hsome]
    have hcond : s.collectedCoins ≥ skin.coinPrice ∧ skinId ∉ s.unlockedSkins :=
      ⟨hge, hnmem⟩
    simp only [if_pos hcond]
    refine ⟨trivial, by simpa using sub_nonneg.mpr hge, trivial, trivial⟩

/-- Witness for `purchase_skin_cases`: buying the basketball skin with a
balance of 150 from the default unlock set. -/
theorem purchase_skin_cases_witness :
    (let s := { demoState with collectedCoins := 150 };
    let skin : BallSkin := { id := "basketball", name := "Basketball", emoji := "🏀",
                             coinPrice := 100, cashPrice := 99, unlocked := false };
    (BALL_SKINS.find? (fun sk => sk.id == "basketball") = none →
      purchaseSkinWithCoins "basketball" s = s) ∧
    ("basketball" ∈ s.unlockedSkins → purchaseSkinWithCoins "basketball" s = s) ∧
    (BALL_SKINS.find? (fun sk => sk.id == "basketball") = some skin →
      s.collectedCoins < skin.coinPrice → purchaseSkinWithCoins "basketball" s = s) ∧
    (BALL_SKINS.find? (fun sk => sk.id == "basketball") = some skin →
      skin.coinPrice ≤ s.collectedCoins → "basketball" ∉ s.unlockedSkins →
      (purchaseSkinWithCoins "basketball" s).collectedCoins
          = s.collectedCoins - skin.coinPrice ∧
      0 ≤ (purchaseSkinWithCoins "basketball" s).collectedCoins ∧
      (purchaseSkinWithCoins "basketball" s).unlockedSkins
          = s.unlockedSkins ++ ["basketball"] ∧
      (purchaseSkinWithCoins "basketball" s).selectedSkin = "basketball")) :=
  purchase_skin_cases _ "basketball" _

/-- Achievement bookkeeping touches only the achievements list and the coin
balance; every other field is untouched. -/
theorem updateAchievementProgress_dailyRewards (achievementId : String) (p : ℚ)
    (s : GameState) :
    (updateAchievementProgress achievementId p s).dailyRewards = s.dailyRewards := rfl

/-- Achievement bookkeeping leaves the login streak untouched. -/
theorem updateAchievementProgress_currentStreak (achievementId : String) (p : ℚ)
    (s : GameState) :
    (updateAchievementProgress achievementId p s).currentStreak = s.currentStreak := rfl

/-- Achievement bookkeeping leaves the leaderboard untouched. -/
theorem updateAchievementProgress_leaderboard (achievementId : String) (p : ℚ)
    (s : GameState) :
    (updateAchievementProgress achievementId p s).leaderboard = s.leaderboard := rfl

/-- In the wrap branch (consecutive login pushing the streak past 7),
`checkDailyLoginReward` resets the streak to 1 and replaces the rewards by
the unclaimed template before the achievement update. -/
theorem checkDailyLoginReward_wrap (s : GameState) (today yesterdayString : String)
    (hne : s.lastLoginDate ≠ today) (hy : s.lastLoginDate = yesterdayString)
    (h7 : s.currentStreak + 1 > 7) :
    checkDailyLoginReward today yesterdayString s
      = updateAchievementProgress "login_streak" 1
          { s with
            dailyRewards := DAILY_REWARDS.map fun reward => { reward with claimed := false }
            lastLoginDate := today
            currentStreak := 1 } := by
  simp only [checkDailyLoginReward]
  rw [if_pos hne, if_pos hy, if_pos h7]

/-- In the non-wrap consecutive branch, `checkDailyLoginReward` increments
the streak and leaves the rewards list alone. -/
theorem checkDailyLoginReward_increment (s : GameState) (today yesterdayString : String)
    (hne : s.lastLoginDate ≠ today) (hy : s.lastLoginDate = yesterdayString)
    (h7 : ¬ (s.currentStreak + 1 > 7)) :
    checkDailyLoginReward today yesterdayString s
      = updateAchievementProgress "login_streak" (s.currentStreak + 1)
          { s with lastLoginDate := today, currentStreak := s.currentStreak + 1 } := by
  simp only [checkDailyLoginReward]
  rw [if_pos hne, if_pos hy, if_neg h7]

/-- In the non-consecutive branch, `checkDailyLoginReward` resets the streak
to 1 and leaves the rewards list alone. -/
theorem checkDailyLoginReward_reset (s : GameState) (today yesterdayString : String)
    (hne : s.lastLoginDate ≠ today) (hny : s.lastLoginDate ≠ yesterdayString) :
    checkDailyLoginReward today yesterdayString s
      = updateAchievementProgress "login_streak" 1
          { s with lastLoginDate := today, currentStreak := 1 } := by
  simp only [checkDailyLoginReward]
  rw [if_pos hne, if_neg hny, if_neg (by norm_num : ¬ ((1 : ℚ) > 7))]

/-- C9: on a consecutive-day login (last login = yesterday ≠ today), a streak
of 7 wraps to 1 and every daily-reward claimed flag is cleared; in general
the wrap to 1 happens exactly when the increment would exceed 7, a
non-wrapping consecutive login increments the streak and leaves the claimed
flags untouched, and a non-consecutive login resets the streak to 1 while
also leaving the claimed flags untouched. -/
theorem daily_streak_wrap_and_flags (s : GameState) (today yesterdayString : String)
    (hne : s.lastLoginDate ≠ today) :
    ((s.lastLoginDate = yesterdayString ∧ s.currentStreak = 7) →
      ((checkDailyLoginReward today yesterdayString s).currentStreak = 1 ∧
       ((checkDailyLoginReward today yesterdayString s).dailyRewards.all
          fun rw => !rw.claimed) = true)) ∧
    ((s.lastLoginDate = yesterdayString ∧ s.currentStreak + 1 > 7) →
      ((checkDailyLoginReward today yesterdayString s).currentStreak = 1 ∧
       ((checkDailyLoginReward today yesterdayString s).dailyRewards.all
          fun rw => !rw.claimed) = true)) ∧
    ((s.lastLoginDate = yesterdayString ∧ ¬ (s.currentStreak + 1 > 7)) →
      ((checkDailyLoginReward today yesterdayString s).currentStreak
          = s.currentStreak + 1 ∧
       (checkDailyLoginReward today yesterdayString s).dailyRewards
          = s.dailyRewards)) ∧
    (s.lastLoginDate ≠ yesterdayString →
      ((checkDailyLoginReward today yesterdayString s).currentStreak = 1 ∧
       (checkDailyLoginReward today yesterdayString s).dailyRewards
          = s.dailyRewards)) := by
  refine ⟨?_, ?_, ?_, ?_⟩
  · rintro ⟨hy, h7⟩
    rw [checkDailyLoginReward_wrap s today yesterdayString hne hy (by rw [h7]; norm_num)]
    refine ⟨rfl, ?_⟩
    simp [updateAchievementProgress, DAILY_REWARDS]
  · rintro ⟨hy, h7⟩
    rw [checkDailyLoginReward_wrap s today yesterdayString hne hy h7]
    refine ⟨rfl, ?_⟩
    simp [updateAchievementProgress, DAILY_REWARDS]
  · rintro ⟨hy, h7⟩
    rw [checkDailyLoginReward_increment s today yesterdayString hne hy h7]
    exact ⟨rfl, rfl⟩
  · intro hny
    rw [checkDailyLoginReward_reset s today yesterdayString hne hny]
    exact ⟨rfl, rfl⟩

/-- Witness for `daily_streak_wrap_and_flags`: streak 7, logged in yesterday
("Fri Oct 10 2025"), checked today ("Sat Oct 11 2025"). -/
theorem daily_streak_wrap_and_flags_witness :
    (let s := { demoState with
        lastLoginDate := "Fri Oct 10 2025", currentStreak := 7 };
    s.lastLoginDate ≠ "Sat Oct 11 2025" ∧
    (((s.lastLoginDate = "Fri Oct 10 2025" ∧ s.currentStreak = 7) →
      ((checkDailyLoginReward "Sat Oct 11 2025" "Fri Oct 10 2025" s).currentStreak = 1 ∧
       ((checkDailyLoginReward "Sat Oct 11 2025" "Fri Oct 10 2025" s).dailyRewards.all
          fun rw => !rw.claimed) = true)) ∧
    ((s.lastLoginDate = "Fri Oct 10 2025" ∧ s.currentStreak + 1 > 7) →
      ((checkDailyLoginReward "Sat Oct 11 2025" "Fri Oct 10 2025" s).currentStreak = 1 ∧
       ((checkDailyLoginReward "Sat Oct 11 2025" "Fri Oct 10 2025" s).dailyRewards.all
          fun rw => !rw.claimed) = true)) ∧
    ((s.lastLoginDate = "Fri Oct 10 2025" ∧ ¬ (s.currentStreak + 1 > 7)) →
      ((checkDailyLoginReward "Sat Oct 11 2025" "Fri Oct 10 2025" s).currentStreak
          = s.currentStreak + 1 ∧
       (checkDailyLoginReward "Sat Oct 11 2025" "Fri Oct 10 2025" s).dailyRewards
          = s.dailyRewards)) ∧
    (s.lastLoginDate ≠ "Fri Oct 10 2025" →
      ((checkDailyLoginReward "Sat Oct 11 2025" "Fri Oct 10 2025" s).currentStreak = 1 ∧
       (checkDailyLoginReward "Sat Oct 11 2025" "Fri Oct 10 2025" s).dailyRewards
          = s.dailyRewards)))) :=
  ⟨by decide, daily_streak_wrap_and_flags _ "Sat Oct 11 2025" "Fri Oct 10 2025" (by decide)⟩

/-- A freshly spawned obstacle lies strictly inside the expanded window. -/
theorem spawnObstacle_inBounds (W H sm : ℚ) (r : TickRand) (hW : 0 < W) (hH : 0 < H)
    (h0 : 0 ≤ r.obstacleYRoll) (h1 : r.obstacleYRoll < 1) :
    inBounds W H (spawnObstacle W H sm r).position = true := by
  have hyl : -100 < r.obstacleYRoll * (H - 200) + 100 := by
    nlinarith [mul_nonneg h0 hH.le]
  have hyu : r.obstacleYRoll * (H - 200) + 100 < H + 100 := by
    nlinarith [mul_nonneg h0 hH.le, mul_lt_mul_of_pos_right h1 hH]
  simp only [spawnObstacle, inBounds, Bool.and_eq_true, decide_eq_true_eq]
  by_cases hside : r.obstacleSideRoll < 0.5 <;>
    simp [hside] <;>
    refine ⟨⟨⟨?_, ?_⟩, ?_⟩, ?_⟩ <;> linarith

/-- A freshly spawned coin lies strictly inside the expanded window. -/
theorem spawnCoin_inBounds (W H sm : ℚ) (r : TickRand) (hW : 0 < W) (hH : 0 < H)
    (h0 : 0 ≤ r.coinYRoll) (h1 : r.coinYRoll < 1) :
    inBounds W H (spawnCoin W H sm r).position = true := by
  have hyl : -100 < r.coinYRoll * (H - 200) + 100 := by
    nlinarith [mul_nonneg h0 hH.le]
  have hyu : r.coinYRoll * (H - 200) + 100 < H + 100 := by
    nlinarith [mul_nonneg h0 hH.le, mul_lt_mul_of_pos_right h1 hH]
  simp only [spawnCoin, inBounds, Bool.and_eq_true, decide_eq_true_eq]
  by_cases hside : r.coinSideRoll < 0.5 <;>
    simp [hside] <;>
    refine ⟨⟨⟨?_, ?_⟩, ?_⟩, ?_⟩ <;> linarith

/-- Every obstacle surviving the advance/cull/spawn stage is strictly inside
the expanded window. -/
theorem mem_stepObstacles {W H sm spm : ℚ} {r : TickRand} {l : List Obstacle}
    (hW : 0 < W) (hH : 0 < H) (h0 : 0 ≤ r.obstacleYRoll) (h1 : r.obstacleYRoll < 1) :
    ∀ o ∈ stepObstacles W H sm spm r l, inBounds W H o.position = true := by
  intro o ho
  simp only [stepObstacles] at ho
  split at ho
  · rcases List.mem_append.mp ho with h | h
    · exact (List.mem_filter.mp h).2
    · rw [List.mem_singleton.mp h]
      exact spawnObstacle_inBounds W H sm r hW hH h0 h1
  · exact (List.mem_filter.mp ho).2

/-- Every coin surviving the advance/cull/spawn stage is strictly inside the
expanded window. -/
theorem mem_stepCoins {W H sm : ℚ} {r : TickRand} {l : List Coin}
    (hW : 0 < W) (hH : 0 < H) (h0 : 0 ≤ r.coinYRoll) (h1 : r.coinYRoll < 1) :
    ∀ c ∈ stepCoins W H sm r l, inBounds W H c.position = true := by
  intro c hc
  simp only [stepCoins] at hc
  split at hc
  · rcases List.mem_append.mp hc with h | h
    · exact (List.mem_filter.mp h).2
    · rw [List.mem_singleton.mp h]
      exact spawnCoin_inBounds W H sm r hW hH h0 h1
  · exact (List.mem_filter.mp hc).2

/-- During play, the tick's obstacle list is the advance/cull/spawn stage. -/
theorem updatePhysics_obstacles (W H : ℚ) (r : TickRand) (s : GameState)
    (h : s.currentScreen = GameScreen.playing) :
    (updatePhysics W H r s).obstacles
      = stepObstacles W H (getDifficultyMultiplier s.score).1
          (getDifficultyMultiplier s.score).2 r s.obstacles := by
  unfold updatePhysics
  rw [if_neg (by simp [h])]

/-- During play, every coin the tick keeps comes from the coin
advance/cull/spawn stage (collection only removes coins). -/
theorem updatePhysics_coins_mem (W H : ℚ) (r : TickRand) (s : GameState)
    (h : s.currentScreen = GameScreen.playing) :
    ∀ c ∈ (updatePhysics W H r s).coins,
      c ∈ stepCoins W H (getDifficultyMultiplier s.score).1 r s.coins := by
  intro c hc
  unfold updatePhysics at hc
  rw [if_neg (by simp [h])] at hc
  exact (List.mem_filter.mp hc).1

/-- C6: after a tick taken during play (positive screen dimensions, spawn
offsets drawn from [0,1)), every remaining obstacle and coin — including any
entity spawned that tick — lies strictly between -100 and dimension+100 on
both axes. -/
theorem tick_entities_within_cull_window (W H : ℚ) (r : TickRand) (s : GameState)
    (hplay : s.currentScreen = GameScreen.playing) (hW : 0 < W) (hH : 0 < H)
    (ho0 : 0 ≤ r.obstacleYRoll) (ho1 : r.obstacleYRoll < 1)
    (hc0 : 0 ≤ r.coinYRoll) (hc1 : r.coinYRoll < 1) :
    ((updatePhysics W H r s).obstacles.all fun o => inBounds W H o.position) = true ∧
    ((updatePhysics W H r s).coins.all fun c => inBounds W H c.position) = true := by
  constructor
  · rw [List.all_eq_true]
    intro o ho
    rw [updatePhysics_obstacles W H r s hplay] at ho
    exact mem_stepObstacles hW hH ho0 ho1 o ho
  · rw [List.all_eq_true]
    intro c hc
    exact mem_stepCoins hW hH hc0 hc1 c (updatePhysics_coins_mem W H r s hplay c hc)

/-- A randomness draw on which both spawn rolls fire (offsets 1/2). -/
def spawningRand : TickRand :=
  { obstacleRoll := 0, obstacleSideRoll := 0, obstacleTypeRoll := 0, obstacleYRoll := 1/2,
    obstacleId := "obs", coinRoll := 0, coinSideRoll := 1, coinValueRoll := 0, coinYRoll := 1/2,
    coinId := "coin" }

/-- Witness for `tick_entities_within_cull_window` on `demoState` with a
spawning randomness draw at W=375, H=812. -/
theorem tick_entities_within_cull_window_witness :
    demoState.currentScreen = GameScreen.playing ∧ (0 : ℚ) < 375 ∧ (0 : ℚ) < 812 ∧
    (0 ≤ spawningRand.obstacleYRoll ∧ spawningRand.obstacleYRoll < 1) ∧
    (0 ≤ spawningRand.coinYRoll ∧ spawningRand.coinYRoll < 1) ∧
    (((updatePhysics 375 812 spawningRand demoState).obstacles.all
        fun o => inBounds 375 812 o.position) = true ∧
     ((updatePhysics 375 812 spawningRand demoState).coins.all
        fun c => inBounds 375 812 c.position) = true) :=
  ⟨rfl, by norm_num, by norm_num, ⟨by norm_num [spawningRand], by norm_num [spawningRand]⟩,
   ⟨by norm_num [spawningRand], by norm_num [spawningRand]⟩,
   tick_entities_within_cull_window 375 812 spawningRand demoState rfl
     (by norm_num) (by norm_num)
     (by norm_num [spawningRand]) (by norm_num [spawningRand])
     (by norm_num [spawningRand]) (by norm_num [spawningRand])⟩

/-- A tick never touches the leaderboard. -/
theorem updatePhysics_leaderboard (W H : ℚ) (r : TickRand) (s : GameState) :
    (updatePhysics W H r s).leaderboard = s.leaderboard := by
  unfold updatePhysics
  split <;> rfl

/-- A tick never touches the player name. -/
theorem updatePhysics_playerName (W H : ℚ) (r : TickRand) (s : GameState) :
    (updatePhysics W H r s).playerName = s.playerName := by
  unfold updatePhysics
  split <;> rfl

/-- A tick never touches the selected skin. -/
theorem updatePhysics_selectedSkin (W H : ℚ) (r : TickRand) (s : GameState) :
    (updatePhysics W H r s).selectedSkin = s.selectedSkin := by
  unfold updatePhysics
  split <;> rfl

/-- A pre-run state whose player already owns a lifetime balance of 100
coins (achievements list empty, so no completion rewards interfere). -/
def preRunState : GameState :=
  { demoState with
    currentScreen := GameScreen.menu
    collectedCoins := 100
    totalGamesPlayed := 5 }

/-- The run started from `preRunState`. -/
def runStartState : GameState := startGame 375 812 preRunState

/-- A mid-run snapshot of that run: the ball is about to hit the ground and
overlaps a value-5 coin (the only coin collected during this run). -/
def midRunState : GameState :=
  { runStartState with
    ball := { position := { x := 187.5, y := 790 },
              velocity := { x := 0, y := 0 }, radius := 25 }
    coins := [{ id := "c5", position := { x := 187.5, y := 790.3 },
                velocity := { x := 0, y := 0 }, radius := 15, value := 5 }]
    score := 600 }

/-- The tick on which the run both collects the coin and ends. -/
def endTickState : GameState := updatePhysics 375 812 quietRand midRunState

/-- Starting a run does not reset the lifetime coin balance. -/
theorem runStartState_collectedCoins : runStartState.collectedCoins = 100 := by
  norm_num [runStartState, startGame, updateAchievementProgress, preRunState, demoState]

/-- The end-of-run tick banks the collected coin into the lifetime balance
and ends the run. -/
theorem endTickState_eval :
    endTickState.collectedCoins = 105 ∧
    endTickState.currentScreen = GameScreen.gameOver := by
  constructor
  · norm_num [endTickState, midRunState, runStartState, startGame,
      updateAchievementProgress, preRunState, demoState, updatePhysics, ballStep,
      stepCoins, ballTouchesCoin, inBounds, distSq, getDifficultyMultiplier,
      BASE_CONFIG, quietRand, min_def]
  · norm_num [endTickState, midRunState, runStartState, startGame,
      updateAchievementProgress, preRunState, demoState, updatePhysics, ballStep,
      stepObstacles, spawnObstacle, ballHitsObstacle, inBounds, distSq,
      getDifficultyMultiplier, BASE_CONFIG, quietRand, min_def]

/-- C1 (code bug): for the run started from a lifetime balance of 100 that
collects exactly one value-5 coin before ending, the game-over handler
submits the lifetime balance 105 as the coins argument (it becomes the
leaderboard bestCoins), although the coins collected during the run amount
to 5 — the submission uses `collectedCoins`, the persistent lifetime wallet,
despite binding it to a variable named `coinsThisRound`. -/
theorem gameOver_submits_lifetime_balance :
    runStartState.collectedCoins = 100 ∧
    endTickState.currentScreen = GameScreen.gameOver ∧
    endTickState.collectedCoins = 105 ∧
    (handleGameOver 0 "lb1" endTickState).leaderboard.map LeaderboardEntry.bestCoins
        = [105] ∧
    endTickState.collectedCoins - runStartState.collectedCoins = 5 ∧
    ¬ ((105 : ℚ) = 5) := by
  have hcoins : endTickState.collectedCoins = 105 := by
    norm_num [endTickState, midRunState, runStartState, startGame,
      updateAchievementProgress, preRunState, demoState, updatePhysics, ballStep,
      stepCoins, ballTouchesCoin, inBounds, distSq, getDifficultyMultiplier,
      BASE_CONFIG, quietRand, min_def]
  have hscreen : endTickState.currentScreen = GameScreen.gameOver := by
    norm_num [endTickState, midRunState, runStartState, startGame,
      updateAchievementProgress, preRunState, demoState, updatePhysics, ballStep,
      stepObstacles, spawnObstacle, ballHitsObstacle, inBounds, distSq,
      getDifficultyMultiplier, BASE_CONFIG, quietRand, min_def]
  have hstart : runStartState.collectedCoins = 100 := by
    norm_num [runStartState, startGame, updateAchievementProgress, preRunState, demoState]
  have hlb : endTickState.leaderboard = [] := by
    show (updatePhysics 375 812 quietRand midRunState).leaderboard = []
    rw [updatePhysics_leaderboard]
    rfl
  have hpn : endTickState.playerName = "Player" := by
    show (updatePhysics 375 812 quietRand midRunState).playerName = "Player"
    rw [updatePhysics_playerName]
    rfl
  have hsk : endTickState.selectedSkin = "classic" := by
    show (updatePhysics 375 812 quietRand midRunState).selectedSkin = "classic"
    rw [updatePhysics_selectedSkin]
    rfl
  refine ⟨hstart, hscreen, hcoins, ?_, ?_, by norm_num⟩
  · unfold handleGameOver
    rw [if_pos hscreen]
    simp only [updateAchievementProgress_leaderboard]
    rw [apply_ite GameState.leaderboard]
    simp only [ite_self]
    simp only [submitScore, hlb, hpn, hsk, submitToBoard]
    simp only [newLeaderboardEntry, List.map_cons, List.map_nil, hcoins]
  · rw [hcoins, hstart]
    norm_num
